import Mathlib

/-!
Shallow embedding of the GabbageFreeCity backend (Node/Express + Supabase).

Data rows mirror `src/database/schema.sql`; the operations mirror the Express
route handlers:
* `src/unnamed/part_010` — garbage-report routes (create, nearby, assign, status)
* `src/unnamed/part_009` — collector routes (verify-collection)
* `src/backend/webhooks/flutterwaveWebhook.js` — Flutterwave webhook
* `src/unnamed/part_007` — Pesapal IPN webhook
* `src/database/schema.sql` — `find_nearest_collector` SQL function

Supabase update-by-filter calls are modelled as pure list transformations on an
explicit database state; timestamps are abstract `Nat` clock values supplied by
the caller; HTTP responses are `(statusCode, success, message)` triples.
-/

namespace GFC

/-- Geographic point (`GEOGRAPHY(Point, 4326)` in `schema.sql`): latitude and
longitude, embedded as exact rationals. -/
structure Location where
  lat : ℚ
  lng : ℚ
deriving DecidableEq

/-- `users.user_type`, constrained by `CHECK (user_type IN ('resident','collector'))`. -/
inductive UserType
  | resident
  | collector
deriving DecidableEq

/-- `garbage_reports.status`, constrained by the CHECK in `schema.sql`:
`pending, assigned, in_progress, completed, cancelled`. -/
inductive ReportStatus
  | pending
  | assigned
  | in_progress
  | completed
  | cancelled
deriving DecidableEq

/-- `payments.payment_status`, constrained by the CHECK in `schema.sql`:
`pending, processing, successful, failed, cancelled`. -/
inductive PaymentStatus
  | pending
  | processing
  | successful
  | failed
  | cancelled
deriving DecidableEq

/-- Terminal payment states per the spec's data model (spec §3: "Terminal
states: SUCCESSFUL, FAILED, CANCELLED"). -/
def PaymentStatus.isTerminal : PaymentStatus → Bool
  | .successful => true
  | .failed => true
  | .cancelled => true
  | _ => false

/-- Row of the `users` table (the columns the route handlers read). -/
structure UserRow where
  id : Nat
  user_type : UserType
  is_active : Bool
  current_location : Option Location
deriving DecidableEq

/-- Row of the `garbage_reports` table (the columns the route handlers read or write). -/
structure ReportRow where
  id : Nat
  resident_id : Nat
  location : Location
  status : ReportStatus
  assigned_collector_id : Option Nat
  payment_amount : ℚ
  assigned_at : Option Nat
  started_at : Option Nat
  completed_at : Option Nat
deriving DecidableEq

/-- Row of the `payments` table (the columns the webhook handlers read or write). -/
structure PaymentRow where
  id : Nat
  report_id : Nat
  resident_id : Nat
  flw_ref : String
  transaction_id : Option String
  payment_status : PaymentStatus
  completed_at : Option Nat
deriving DecidableEq

/-- Row of the `collection_logs` table, as inserted by
`POST /api/collectors/verify-collection` (`src/unnamed/part_009`). -/
structure CollectionLog where
  id : Nat
  report_id : Nat
  collector_id : Nat
  qr_code_scanned : Bool
  collection_location : Location
  distance_from_report : Option ℚ
  started_at : Nat
  completed_at : Nat
deriving DecidableEq

/-- Kind of SMS the webhook handlers send via Africa's Talking. -/
inductive NotifKind
  | payment_confirmed_sms
  | payment_failed_sms
deriving DecidableEq

/-- Record of one `sendSMSNotification` call (recipient user and template kind). -/
structure Notification where
  user_id : Nat
  kind : NotifKind
deriving DecidableEq

/-- The persistent state the handlers act on: the four tables of
`schema.sql`, plus the log of SMS side effects issued so far. -/
structure DB where
  users : List UserRow
  reports : List ReportRow
  payments : List PaymentRow
  collection_logs : List CollectionLog
  notifications : List Notification
deriving DecidableEq

/-- HTTP response: status code, the JSON `success` flag, and the JSON `message`. -/
structure Resp where
  code : Nat
  success : Bool
  message : String
deriving DecidableEq

/-- SQL `UPDATE ... WHERE p` / supabase `.update(f).eq(...)`: apply `f` to every
row satisfying `p`, leaving other rows unchanged. -/
def updateRows (p : α → Bool) (f : α → α) : List α → List α :=
  List.map fun x => if p x then f x else x

/-- Flutterwave status mapping (`flutterwaveWebhook.js` lines 141–155): the
switch on the raw gateway `status` string, defaulting to `processing`. -/
def mapFlwStatus (s : String) : PaymentStatus :=
  if s = "successful" then .successful
  else if s = "failed" then .failed
  else if s = "cancelled" then .cancelled
  else .processing

/-- Pesapal status mapping (`src/unnamed/part_007` lines 136–150): the switch on
`transaction.payment_status_description`, defaulting to `processing`. -/
def mapPesapalStatus (s : String) : PaymentStatus :=
  if s = "Completed" then .successful
  else if s = "Failed" then .failed
  else if s = "Invalid" then .cancelled
  else if s = "Reversed" then .cancelled
  else .processing

/-- The `sendSMSNotification` calls in both webhook handlers: look the resident
up in `users` and, when found, issue one SMS (appended to the side-effect log).
SMS failure is swallowed by the source, so sending never fails here. -/
def sendPaymentSMS (db : DB) (residentId : Nat) (k : NotifKind) : List Notification :=
  match db.users.find? (fun u => u.id == residentId) with
  | some u => db.notifications ++ [⟨u.id, k⟩]
  | none => db.notifications

/-- Input to the Flutterwave webhook: whether the `verif-hash` header matches
the secret (`signature_ok`), and the fields destructured from the payload. -/
structure FlwWebhookReq where
  signature_ok : Bool
  tx_ref : String
  transaction_id : String
  raw_status : String
deriving DecidableEq

/-- `handleFlutterwaveWebhook` (`flutterwaveWebhook.js` lines 90–255).
Checks the signature (401 on mismatch), maps the raw status, then updates the
payment row matched by `flw_ref` unconditionally — no check of the payment's
current status.  On mapped `successful` the report is reset to `pending`; on
`successful`/`failed` an SMS is sent.  Every post-signature path returns 200. -/
def handleFlutterwaveWebhook (db : DB) (req : FlwWebhookReq) (now : Nat) : Resp × DB :=
  if req.signature_ok = false then
    (⟨401, false, "Invalid signature"⟩, db)
  else
    let paymentStatus := mapFlwStatus req.raw_status
    match db.payments.find? (fun p => p.flw_ref == req.tx_ref) with
    | none => (⟨200, false, "Payment record not found"⟩, db)
    | some payment =>
      let payments := updateRows (fun p => p.flw_ref == req.tx_ref)
        (fun p =>
          { p with
            transaction_id := some req.transaction_id
            payment_status := paymentStatus
            completed_at := if req.raw_status = "successful" then some now else none })
        db.payments
      let reports :=
        if paymentStatus = PaymentStatus.successful then
          updateRows (fun r => r.id == payment.report_id)
            (fun r => { r with status := ReportStatus.pending }) db.reports
        else db.reports
      let notifs :=
        if paymentStatus = PaymentStatus.successful then
          sendPaymentSMS db payment.resident_id NotifKind.payment_confirmed_sms
        else if paymentStatus = PaymentStatus.failed then
          sendPaymentSMS db payment.resident_id NotifKind.payment_failed_sms
        else db.notifications
      (⟨200, true, "Webhook processed successfully"⟩,
        { db with payments := payments, reports := reports, notifications := notifs })

/-- Input to the Pesapal IPN handler: the two query parameters, and the
`payment_status_description` obtained from Pesapal's status API (`none`
models `getTransactionStatus` throwing, which the handler's catch turns
into a 200 "OK"). -/
structure PesapalIPNReq where
  orderTrackingId : Option String
  orderMerchantReference : Option String
  payment_status_description : Option String
deriving DecidableEq

/-- `handlePesapalIPN` (`src/unnamed/part_007` lines 113–231).  Returns 400 when
either query parameter is absent; otherwise maps the Pesapal status and updates
the payment row matched on `flw_ref` (reused for the Pesapal merchant
reference) unconditionally, resets the report to `pending` on success, sends
the SMS, and returns 200 "OK" on every remaining path. -/
def handlePesapalIPN (db : DB) (req : PesapalIPNReq) (now : Nat) : Resp × DB :=
  match req.orderTrackingId, req.orderMerchantReference with
  | some trackingId, some merchantRef =>
    match req.payment_status_description with
    | none => (⟨200, true, "OK"⟩, db)
    | some desc =>
      let paymentStatus := mapPesapalStatus desc
      match db.payments.find? (fun p => p.flw_ref == merchantRef) with
      | none => (⟨200, true, "OK"⟩, db)
      | some payment =>
        let payments := updateRows (fun p => p.flw_ref == merchantRef)
          (fun p =>
            { p with
              transaction_id := some trackingId
              payment_status := paymentStatus
              completed_at := if paymentStatus = PaymentStatus.successful then some now else none })
          db.payments
        let reports :=
          if paymentStatus = PaymentStatus.successful then
            updateRows (fun r => r.id == payment.report_id)
              (fun r => { r with status := ReportStatus.pending }) db.reports
          else db.reports
        let notifs :=
          if paymentStatus = PaymentStatus.successful then
            sendPaymentSMS db payment.resident_id NotifKind.payment_confirmed_sms
          else if paymentStatus = PaymentStatus.failed then
            sendPaymentSMS db payment.resident_id NotifKind.payment_failed_sms
          else db.notifications
        (⟨200, true, "OK"⟩,
          { db with payments := payments, reports := reports, notifications := notifs })
  | _, _ => (⟨400, false, "Invalid IPN parameters"⟩, db)

/-- `POST /api/garbage-reports` (`src/unnamed/part_010` lines 26–77): after Joi
validation of the coordinates, insert a report with `status: 'pending'`, no
assigned collector, and the configured fee. -/
def createReport (db : DB) (residentId newId : Nat) (loc : Location) (amount : ℚ) : Resp × DB :=
  if (-90 ≤ loc.lat ∧ loc.lat ≤ 90) ∧ (-180 ≤ loc.lng ∧ loc.lng ≤ 180) then
    let report : ReportRow :=
      { id := newId, resident_id := residentId, location := loc
        status := ReportStatus.pending, assigned_collector_id := none
        payment_amount := amount, assigned_at := none, started_at := none, completed_at := none }
    (⟨201, true, "Garbage report created successfully"⟩,
      { db with reports := db.reports ++ [report] })
  else
    (⟨400, false, "Validation error"⟩, db)

/-- `GET /api/garbage-reports/nearby` (`src/unnamed/part_010` lines 119–171).
The route first calls the RPC `get_nearby_reports`, which is not defined in
`schema.sql`, so the call errors and the handler takes its fallback branch:
all reports with `status = 'pending'`, limited to 20, with no payment check. -/
def getNearbyReports (db : DB) : List ReportRow :=
  (db.reports.filter (fun r => r.status == ReportStatus.pending)).take 20

/-- The row update applied by the assign route: set the collector, the
`assigned` status, and `assigned_at`. -/
def claimUpdate (collectorId now : Nat) (r : ReportRow) : ReportRow :=
  { r with
    assigned_collector_id := some collectorId
    status := ReportStatus.assigned
    assigned_at := some now }

/-- `PATCH /api/garbage-reports/:id/assign` (`src/unnamed/part_010` lines
177–236): 404 when the report is missing, 400 "Report is not available for
assignment" when its status is not `pending`, 400 "Payment not completed for
this report" when the report's first payment is missing or not `successful`;
otherwise set `assigned_collector_id`, `status := 'assigned'`, `assigned_at`.
The row update it applies is split out as `claimUpdate`. -/
def assignReport (db : DB) (collectorId reportId now : Nat) : Resp × DB :=
  match db.reports.find? (fun r => r.id == reportId) with
  | none => (⟨404, false, "Report not found"⟩, db)
  | some report =>
    if report.status ≠ ReportStatus.pending then
      (⟨400, false, "Report is not available for assignment"⟩, db)
    else
      match (db.payments.filter (fun p => p.report_id == reportId)).head? with
      | none => (⟨400, false, "Payment not completed for this report"⟩, db)
      | some payment =>
        if payment.payment_status ≠ PaymentStatus.successful then
          (⟨400, false, "Payment not completed for this report"⟩, db)
        else
          let reports := updateRows (fun r => r.id == reportId)
            (claimUpdate collectorId now) db.reports
          (⟨200, true, "Report assigned successfully"⟩, { db with reports := reports })

/-- The five status strings accepted by `PATCH /api/garbage-reports/:id/status`. -/
def validStatuses : List String :=
  ["pending", "assigned", "in_progress", "completed", "cancelled"]

/-- Decoding of a valid status string to the enum (only applied under the
`validStatuses` guard, mirroring the route's string equality checks). -/
def parseStatus (s : String) : ReportStatus :=
  if s = "pending" then .pending
  else if s = "assigned" then .assigned
  else if s = "in_progress" then .in_progress
  else if s = "completed" then .completed
  else .cancelled

/-- The row update applied by the status route: the new status, plus the
`started_at` / `completed_at` stamps the handler adds conditionally. -/
def statusUpdate (s : String) (now : Nat) (r : ReportRow) : ReportRow :=
  { r with
    status := parseStatus s
    started_at := if s = "in_progress" then some now else r.started_at
    completed_at := if s = "completed" then some now else r.completed_at }

/-- `PATCH /api/garbage-reports/:id/status` (`src/unnamed/part_010` lines
242–282): reject a string outside `validStatuses` with 400 "Invalid status";
otherwise write the new status unconditionally — no check of the current
status, of the actor, or of any transition table — stamping `started_at` /
`completed_at` as appropriate.  A missing report makes `.single()` throw,
propagating to the error handler (500).  The row update it applies is split
out as `statusUpdate`. -/
def updateStatus (db : DB) (reportId : Nat) (s : String) (now : Nat) : Resp × DB :=
  if s ∈ validStatuses then
    match db.reports.find? (fun r => r.id == reportId) with
    | none => (⟨500, false, "Internal server error"⟩, db)
    | some _ =>
      let reports := updateRows (fun r => r.id == reportId) (statusUpdate s now) db.reports
      (⟨200, true, "Status updated"⟩, { db with reports := reports })
  else
    (⟨400, false, "Invalid status"⟩, db)

/-- The row update applied by the verify route: status `completed` plus the
completion stamp; the assigned collector is left as it is. -/
def verifyUpdate (now : Nat) (r : ReportRow) : ReportRow :=
  { r with status := ReportStatus.completed, completed_at := some now }

/-- `POST /api/collectors/verify-collection` (`src/unnamed/part_009` lines
88–151): look the report up by id AND `assigned_collector_id = caller` — with
no check of the report's current status; 404 when no such row.  Otherwise
insert a `collection_logs` row (whose `distance_from_report` column the insert
never sets) and set the report's status to `completed`.  The row update it
applies is split out as `verifyUpdate`. -/
def verifyCollection (db : DB) (collectorId reportId : Nat) (loc : Location)
    (qrPresent : Bool) (newLogId now : Nat) : Resp × DB :=
  match db.reports.find?
      (fun r => r.id == reportId && r.assigned_collector_id == some collectorId) with
  | none => (⟨404, false, "Report not found or not assigned to you"⟩, db)
  | some _ =>
    let log : CollectionLog :=
      { id := newLogId, report_id := reportId, collector_id := collectorId
        qr_code_scanned := qrPresent, collection_location := loc
        distance_from_report := none
        started_at := now, completed_at := now }
    let reports := updateRows (fun r => r.id == reportId) (verifyUpdate now) db.reports
    (⟨200, true, "Collection verified successfully"⟩,
      { db with collection_logs := db.collection_logs ++ [log], reports := reports })

/-- Eligibility filter and distance computation of the SQL function
`find_nearest_collector` (`schema.sql` lines 171–198): collectors that are
active and have a `current_location`, paired with their `ST_Distance` to the
report's location.  `ST_Distance` is PostGIS code external to the repository,
so it enters as the parameter `dist`. -/
def eligibleCollectors (dist : Location → Location → ℚ) (db : DB) (gr : ReportRow) :
    List (UserRow × ℚ) :=
  db.users.filterMap fun u =>
    match u.current_location with
    | some l =>
      if u.user_type == UserType.collector && u.is_active then some (u, dist l gr.location)
      else none
    | none => none

/-- `find_nearest_collector(report_uuid)` (`schema.sql` lines 171–198):
`ORDER BY ST_Distance(...) ASC LIMIT 5` over the eligible collectors.  The SQL
`ORDER BY` has distance as its only key; ties are modelled as a stable sort
over the table's row order.  An unknown report id gives the empty cross join,
hence the empty result. -/
def find_nearest_collector (dist : Location → Location → ℚ) (db : DB) (report_uuid : Nat) :
    List (UserRow × ℚ) :=
  match db.reports.find? (fun r => r.id == report_uuid) with
  | none => []
  | some gr =>
    ((eligibleCollectors dist db gr).insertionSort (fun a b => a.2 ≤ b.2)).take 5

instance : IsTotal (UserRow × ℚ) (fun a b => a.2 ≤ b.2) :=
  ⟨fun a b => le_total a.2 b.2⟩

instance : IsTrans (UserRow × ℚ) (fun a b => a.2 ≤ b.2) :=
  ⟨fun _ _ _ h1 h2 => le_trans h1 h2⟩

/-- Spec §8 invariant: `assigned_collector != null` iff
`status ∈ {ASSIGNED, IN_PROGRESS, COMPLETED}`. -/
def reportInv (r : ReportRow) : Prop :=
  r.assigned_collector_id.isSome = true ↔
    (r.status = ReportStatus.assigned ∨ r.status = ReportStatus.in_progress ∨
      r.status = ReportStatus.completed)

instance (r : ReportRow) : Decidable (reportInv r) := by
  unfold reportInv; infer_instance

/-! ### Concrete sample data, taken from the spec's test scenario (§8) and
`schema.sql`'s sample rows: a Nakawa resident and a city-centre collector. -/

/-- Sample report location.  The exact coordinates are irrelevant to every
statement below; integer-valued rationals keep kernel evaluation feasible. -/
def locA : Location := ⟨3, 33⟩

/-- Sample collector location, distinct from `locA`. -/
def locB : Location := ⟨1, 32⟩

def resident1 : UserRow := ⟨1, UserType.resident, true, none⟩

def collector2 : UserRow := ⟨2, UserType.collector, true, some locB⟩

def collector3 : UserRow := ⟨3, UserType.collector, true, some locB⟩

/-- Report 1, freshly submitted by resident 1, fee 5000, not yet assigned. -/
def rep1 : ReportRow := ⟨1, 1, locA, ReportStatus.pending, none, 5000, none, none, none⟩

/-- Payment for report 1, already SUCCESSFUL (terminal), completed at t=5. -/
def pay1 : PaymentRow := ⟨1, 1, 1, "FLW-1", none, PaymentStatus.successful, some 5⟩

/-- Report 1 already assigned to collector 2. -/
def repAssigned : ReportRow := ⟨1, 1, locA, ReportStatus.assigned, some 2, 5000, some 3, none, none⟩

/-- Report 9, cancelled, never assigned. -/
def repCancelled : ReportRow := ⟨9, 1, locA, ReportStatus.cancelled, none, 5000, none, none, none⟩

/-- Report 1 already completed by collector 2. -/
def repDone : ReportRow := ⟨1, 1, locA, ReportStatus.completed, some 2, 5000, some 3, some 4, some 6⟩

/-- State with a successful payment for pending report 1. -/
def dbC1 : DB := ⟨[resident1], [rep1], [pay1], [], []⟩

/-- State whose only report is already completed. -/
def dbC2 : DB := ⟨[resident1, collector2], [repDone], [], [], []⟩

/-- State with an already-assigned report (1) and a cancelled report (9). -/
def dbC3 : DB := ⟨[resident1, collector2, collector3], [repAssigned, repCancelled], [pay1], [], []⟩

/-- State with a single pending, unassigned report. -/
def dbC4 : DB := ⟨[resident1], [rep1], [], [], []⟩

/-- Two active collectors at the same point, the higher id listed first. -/
def dbC5 : DB := ⟨[collector3, collector2], [rep1], [], [], []⟩

/-- State with no reports yet. -/
def dbC7 : DB := ⟨[resident1], [], [], [], []⟩

/-- State with report 1 assigned to collector 2, payment successful. -/
def dbC8 : DB := ⟨[resident1, collector2], [repAssigned], [pay1], [], []⟩

/-- A concrete distance function (the discrete metric) used to close
counterexample and witness statements.  The counterexample that uses it places
the tied collectors at one identical point, so its conclusion holds for any
distance function whatsoever (in particular for the PostGIS geodesic
distance): a concrete instance merely makes the statement closed and
kernel-evaluable. -/
def distEx (a b : Location) : ℚ := if a = b then 0 else 1

/-! ### Helper lemmas about the embedded operations -/

theorem mem_updateRows {α} {p : α → Bool} {f : α → α} {l : List α} {x : α} :
    x ∈ updateRows p f l ↔ ∃ y ∈ l, x = if p y then f y else y := by
  simp only [updateRows, List.mem_map]
  constructor
  · rintro ⟨y, hy, rfl⟩; exact ⟨y, hy, rfl⟩
  · rintro ⟨y, hy, rfl⟩; exact ⟨y, hy, rfl⟩

theorem find?_updateRows {α} {q p : α → Bool} {f : α → α} {l : List α}
    (h : ∀ x, q (f x) = q x) :
    (updateRows p f l).find? q = (l.find? q).map fun x => if p x then f x else x := by
  induction l with
  | nil => rfl
  | cons a t ih =>
    have hqa : q (if p a then f a else a) = q a := by
      by_cases hpa : p a <;> simp [hpa, h a]
    by_cases hq : q a = true
    · simp [updateRows, List.find?_cons, hqa, hq]
    · simp only [updateRows, List.map_cons, List.find?_cons, hqa,
        hq, Bool.false_eq_true] at ih ⊢
      simp only [Bool.not_eq_true] at hq
      simp [hq, ih, updateRows]

theorem length_sendPaymentSMS {db : DB} {rid : Nat} (k : NotifKind)
    (h : ∃ u ∈ db.users, u.id = rid) :
    (sendPaymentSMS db rid k).length = db.notifications.length + 1 := by
  obtain ⟨u, hu, hid⟩ := h
  have hsome : (db.users.find? (fun u => u.id == rid)).isSome := by
    rw [List.find?_isSome]
    exact ⟨u, hu, by simp [hid]⟩
  obtain ⟨v, hv⟩ := Option.isSome_iff_exists.mp hsome
  simp [sendPaymentSMS, hv]

theorem mem_eligibleCollectors {dist : Location → Location → ℚ} {db : DB} {gr : ReportRow}
    {x : UserRow × ℚ} :
    x ∈ eligibleCollectors dist db gr ↔
      x.1 ∈ db.users ∧ x.1.user_type = UserType.collector ∧ x.1.is_active = true ∧
      ∃ l, x.1.current_location = some l ∧ x.2 = dist l gr.location := by
  simp only [eligibleCollectors, List.mem_filterMap]
  constructor
  · rintro ⟨u, hu, hf⟩
    rcases hl : u.current_location with _ | l <;> rw [hl] at hf
    · exact absurd hf (by simp)
    · have hf' : (if (u.user_type == UserType.collector && u.is_active) = true
          then some (u, dist l gr.location) else none) = some x := hf
      by_cases hc : (u.user_type == UserType.collector && u.is_active) = true
      · rw [if_pos hc] at hf'
        obtain rfl := Option.some.inj hf'
        simp only [Bool.and_eq_true, beq_iff_eq] at hc
        exact ⟨hu, hc.1, hc.2, l, hl, rfl⟩
      · rw [if_neg hc] at hf'; exact absurd hf' (by simp)
  · rintro ⟨hmem, htype, hact, l, hl, hd⟩
    refine ⟨x.1, hmem, ?_⟩
    rw [hl]
    show (if (x.1.user_type == UserType.collector && x.1.is_active) = true
        then some (x.1, dist l gr.location) else none) = some x
    rw [if_pos (by simp [htype, hact]), ← hd, Prod.mk.eta]

/-- When the signature passes and a payment matches the reference, the
Flutterwave handler overwrites the matching payment's status and
`completed_at` from the incoming webhook alone, regardless of what the
payment's status was before. -/
theorem flw_overwrites_payment (db : DB) (req : FlwWebhookReq) (now : Nat) (payment : PaymentRow)
    (hsig : req.signature_ok = true)
    (hfind : db.payments.find? (fun p => p.flw_ref == req.tx_ref) = some payment) :
    ∀ p' ∈ (handleFlutterwaveWebhook db req now).2.payments, p'.flw_ref = req.tx_ref →
      p'.payment_status = mapFlwStatus req.raw_status ∧
      p'.completed_at = (if req.raw_status = "successful" then some now else none) := by
  intro p' hp' hflw
  simp only [handleFlutterwaveWebhook, hsig, hfind, Bool.true_eq_false, if_false] at hp'
  rw [mem_updateRows] at hp'
  obtain ⟨y, hy, hcase⟩ := hp'
  by_cases hpy : (y.flw_ref == req.tx_ref) = true
  · rw [if_pos hpy] at hcase
    subst hcase
    exact ⟨rfl, rfl⟩
  · rw [if_neg hpy] at hcase
    subst hcase
    exact absurd hflw (by simpa using hpy)

/-- The notification side effect of the Flutterwave handler: on a mapped
`successful` or `failed` status the SMS is sent again, whatever the payment's
previous status was. -/
theorem flw_notifications (db : DB) (req : FlwWebhookReq) (now : Nat) (payment : PaymentRow)
    (hsig : req.signature_ok = true)
    (hfind : db.payments.find? (fun p => p.flw_ref == req.tx_ref) = some payment) :
    (handleFlutterwaveWebhook db req now).2.notifications =
      (if mapFlwStatus req.raw_status = PaymentStatus.successful then
        sendPaymentSMS db payment.resident_id NotifKind.payment_confirmed_sms
      else if mapFlwStatus req.raw_status = PaymentStatus.failed then
        sendPaymentSMS db payment.resident_id NotifKind.payment_failed_sms
      else db.notifications) := by
  simp only [handleFlutterwaveWebhook, hsig, hfind, Bool.true_eq_false, if_false]

/-- Same overwrite fact for the Pesapal IPN handler. -/
theorem pesapal_overwrites_payment (db : DB) (tid ref desc : String) (now : Nat)
    (payment : PaymentRow)
    (hfind : db.payments.find? (fun p => p.flw_ref == ref) = some payment) :
    ∀ p' ∈ (handlePesapalIPN db ⟨some tid, some ref, some desc⟩ now).2.payments,
      p'.flw_ref = ref →
      p'.payment_status = mapPesapalStatus desc ∧
      p'.completed_at =
        (if mapPesapalStatus desc = PaymentStatus.successful then some now else none) := by
  intro p' hp' hflw
  simp only [handlePesapalIPN, hfind] at hp'
  rw [mem_updateRows] at hp'
  obtain ⟨y, hy, hcase⟩ := hp'
  by_cases hpy : (y.flw_ref == ref) = true
  · rw [if_pos hpy] at hcase
    subst hcase
    exact ⟨rfl, rfl⟩
  · rw [if_neg hpy] at hcase
    subst hcase
    exact absurd hflw (by simpa using hpy)

/-! ### Claim C1 — webhook idempotency -/

/-- Claim C1, counterexample.  Payment FLW-1 is terminal (SUCCESSFUL, completed
at t=5); the gateway then reconciles FAILED for the same reference.  The claim
says this is a no-op with no additional notification, but the handler flips the
payment to `failed`, clears `completed_at`, and sends a failure SMS. -/
theorem C1_counterexample :
    ((handleFlutterwaveWebhook dbC1 ⟨true, "FLW-1", "TX9", "failed"⟩ 9).2.payments.map
        (fun p => (p.payment_status, p.completed_at)) =
      [(PaymentStatus.failed, none)]) ∧
    (dbC1.payments.map (fun p => (p.payment_status, p.completed_at)) =
      [(PaymentStatus.successful, some 5)]) ∧
    (handleFlutterwaveWebhook dbC1 ⟨true, "FLW-1", "TX9", "failed"⟩ 9).2.notifications.length = 1 := by
  refine ⟨rfl, rfl, rfl⟩

/-- Claim C1, amended: reconciliation is not idempotent.  Even when the matched
payment is already in a terminal status, a webhook carrying any terminal
gateway status overwrites the payment's status and `completed_at`
unconditionally, and (unless the mapped status is `cancelled`) issues the SMS
notification again. -/
theorem C1_amended (db : DB) (req : FlwWebhookReq) (now : Nat) (payment : PaymentRow)
    (hsig : req.signature_ok = true)
    (hfind : db.payments.find? (fun p => p.flw_ref == req.tx_ref) = some payment)
    (_hterm : payment.payment_status.isTerminal = true)
    (hmap : (mapFlwStatus req.raw_status).isTerminal = true)
    (hres : ∃ u ∈ db.users, u.id = payment.resident_id) :
    (∀ p' ∈ (handleFlutterwaveWebhook db req now).2.payments, p'.flw_ref = req.tx_ref →
      p'.payment_status = mapFlwStatus req.raw_status ∧
      p'.completed_at = (if req.raw_status = "successful" then some now else none)) ∧
    (mapFlwStatus req.raw_status ≠ PaymentStatus.cancelled →
      (handleFlutterwaveWebhook db req now).2.notifications.length =
        db.notifications.length + 1) := by
  refine ⟨flw_overwrites_payment db req now payment hsig hfind, ?_⟩
  intro hne
  rw [flw_notifications db req now payment hsig hfind]
  rcases hst : mapFlwStatus req.raw_status with _ | _ | _ | _ | _
  · rw [hst] at hmap; exact absurd hmap (by simp [PaymentStatus.isTerminal])
  · rw [hst] at hmap; exact absurd hmap (by simp [PaymentStatus.isTerminal])
  · simpa using length_sendPaymentSMS NotifKind.payment_confirmed_sms hres
  · simpa using length_sendPaymentSMS NotifKind.payment_failed_sms hres
  · rw [hst] at hne; exact absurd rfl hne

/-- Claim C1, witness for the amended theorem: the concrete FAILED-after-
SUCCESSFUL scenario sends one more notification. -/
theorem C1_witness :
    (handleFlutterwaveWebhook dbC1 ⟨true, "FLW-1", "TX9", "failed"⟩ 9).2.notifications.length =
      dbC1.notifications.length + 1 :=
  (C1_amended dbC1 ⟨true, "FLW-1", "TX9", "failed"⟩ 9 pay1 rfl (by decide) (by decide)
    (by decide) ⟨resident1, by decide, rfl⟩).2 (by decide)

/-! ### Claim C6 — webhooks always acknowledge with 2xx -/

/-- Claim C6, counterexample.  A Pesapal IPN invocation missing the
OrderTrackingId query parameter is answered 400, and a Flutterwave invocation
with an invalid signature is answered 401 — both non-2xx. -/
theorem C6_counterexample :
    (handlePesapalIPN dbC1 ⟨none, some "FLW-1", some "Completed"⟩ 3).1 =
      ⟨400, false, "Invalid IPN parameters"⟩ ∧
    (handleFlutterwaveWebhook dbC1 ⟨false, "FLW-1", "TX9", "successful"⟩ 3).1 =
      ⟨401, false, "Invalid signature"⟩ :=
  ⟨rfl, rfl⟩

/-- Claim C6, amended: once past the boundary checks (a valid Flutterwave
signature; both Pesapal query parameters present), every webhook invocation is
answered 200 — whatever the payload carries, whether a matching payment exists
or not, and whether the upstream status fetch fails. -/
theorem C6_amended :
    (∀ (db : DB) (req : FlwWebhookReq) (now : Nat),
      req.signature_ok = true → (handleFlutterwaveWebhook db req now).1.code = 200) ∧
    (∀ (db : DB) (req : PesapalIPNReq) (now : Nat),
      req.orderTrackingId.isSome → req.orderMerchantReference.isSome →
      (handlePesapalIPN db req now).1.code = 200) := by
  constructor
  · intro db req now hsig
    cases hf : db.payments.find? (fun p => p.flw_ref == req.tx_ref) <;>
      simp [handleFlutterwaveWebhook, hsig, hf]
  · intro db req now h1 h2
    obtain ⟨a, b, c⟩ := req
    obtain ⟨tid, rfl⟩ := Option.isSome_iff_exists.mp h1
    obtain ⟨ref, rfl⟩ := Option.isSome_iff_exists.mp h2
    cases c with
    | none => rfl
    | some desc =>
      cases hf : db.payments.find? (fun p => p.flw_ref == ref) <;>
        simp [handlePesapalIPN, hf]

/-- Claim C6, witness: concrete 200 acknowledgements, including the
payment-not-found path. -/
theorem C6_witness :
    (handleFlutterwaveWebhook dbC1 ⟨true, "NO-SUCH-REF", "TX9", "successful"⟩ 3).1.code = 200 ∧
    (handlePesapalIPN dbC1 ⟨some "TRK", some "FLW-1", some "Completed"⟩ 3).1.code = 200 :=
  ⟨C6_amended.1 dbC1 ⟨true, "NO-SUCH-REF", "TX9", "successful"⟩ 3 rfl,
   C6_amended.2 dbC1 ⟨some "TRK", some "FLW-1", some "Completed"⟩ 3 rfl rfl⟩

/-! ### Claim C10 — total status mapping with non-terminal default -/

/-- Claim C10, confirmed: both gateway mappings send every unrecognized raw
status to the internal `processing` status; `processing` is not terminal; and
both handlers write the mapped status to the matching payment unconditionally. -/
theorem C10_status_mapping (db : DB) :
    (∀ s : String, s ≠ "successful" → s ≠ "failed" → s ≠ "cancelled" →
      mapFlwStatus s = PaymentStatus.processing) ∧
    (∀ s : String, s ≠ "Completed" → s ≠ "Failed" → s ≠ "Invalid" → s ≠ "Reversed" →
      mapPesapalStatus s = PaymentStatus.processing) ∧
    PaymentStatus.isTerminal PaymentStatus.processing = false ∧
    (∀ (req : FlwWebhookReq) (now : Nat) (payment : PaymentRow),
      req.signature_ok = true →
      db.payments.find? (fun p => p.flw_ref == req.tx_ref) = some payment →
      ∀ p' ∈ (handleFlutterwaveWebhook db req now).2.payments, p'.flw_ref = req.tx_ref →
        p'.payment_status = mapFlwStatus req.raw_status) ∧
    (∀ (tid ref desc : String) (now : Nat) (payment : PaymentRow),
      db.payments.find? (fun p => p.flw_ref == ref) = some payment →
      ∀ p' ∈ (handlePesapalIPN db ⟨some tid, some ref, some desc⟩ now).2.payments,
        p'.flw_ref = ref → p'.payment_status = mapPesapalStatus desc) := by
  refine ⟨?_, ?_, rfl, ?_, ?_⟩
  · intro s h1 h2 h3; simp [mapFlwStatus, h1, h2, h3]
  · intro s h1 h2 h3 h4; simp [mapPesapalStatus, h1, h2, h3, h4]
  · intro req now payment hsig hfind p' hp' hflw
    exact (flw_overwrites_payment db req now payment hsig hfind p' hp' hflw).1
  · intro tid ref desc now payment hfind p' hp' hflw
    exact (pesapal_overwrites_payment db tid ref desc now payment hfind p' hp' hflw).1

/-- Claim C10, witness: the unrecognized Flutterwave status "on-hold" maps to
`processing` and is what gets written for payment FLW-1. -/
theorem C10_witness :
    mapFlwStatus "on-hold" = PaymentStatus.processing ∧
    mapPesapalStatus "Pending" = PaymentStatus.processing ∧
    (⟨1, 1, 1, "FLW-1", some "TX2", PaymentStatus.processing, none⟩ : PaymentRow).payment_status =
      mapFlwStatus "on-hold" := by
  refine ⟨(C10_status_mapping dbC1).1 "on-hold" (by decide) (by decide) (by decide),
    (C10_status_mapping dbC1).2.1 "Pending" (by decide) (by decide) (by decide) (by decide),
    ?_⟩
  exact (C10_status_mapping dbC1).2.2.2.1 ⟨true, "FLW-1", "TX2", "on-hold"⟩ 4 pay1 rfl
    (by decide) ⟨1, 1, 1, "FLW-1", some "TX2", PaymentStatus.processing, none⟩ (by decide) rfl

/-! ### Claim C2 — report status transition table -/

/-- Claim C2, counterexample.  Report 1 is COMPLETED; the status endpoint is
asked to move it (back) to `pending` — a (state, event) pair far outside the
transition table.  The claim says this must fail with an InvalidTransition
error leaving the report unchanged; the code answers 200 and applies it. -/
theorem C2_counterexample :
    (updateStatus dbC2 1 "pending" 7).1 = ⟨200, true, "Status updated"⟩ ∧
    (updateStatus dbC2 1 "pending" 7).2.reports =
      [⟨1, 1, locA, ReportStatus.pending, some 2, 5000, some 3, some 4, some 6⟩] :=
  ⟨rfl, rfl⟩

/-- Claim C2, amended: the status endpoint enforces no transition table and no
actor guard.  Any of the five recognized status strings is applied
unconditionally to the report, whatever its current state, with a 200 answer;
only a string outside the recognized set is rejected (400 "Invalid status"),
leaving the state unchanged. -/
theorem C2_amended :
    (∀ (db : DB) (rid : Nat) (s : String) (now : Nat) (r : ReportRow),
      s ∈ validStatuses →
      db.reports.find? (fun r => r.id == rid) = some r →
      (updateStatus db rid s now).1 = ⟨200, true, "Status updated"⟩ ∧
      ∀ r' ∈ (updateStatus db rid s now).2.reports, r'.id = rid →
        r'.status = parseStatus s) ∧
    (∀ (db : DB) (rid : Nat) (s : String) (now : Nat),
      s ∉ validStatuses →
      updateStatus db rid s now = (⟨400, false, "Invalid status"⟩, db)) := by
  constructor
  · intro db rid s now r hs hfind
    have hres : updateStatus db rid s now =
        (⟨200, true, "Status updated"⟩,
          { db with reports := updateRows (fun r => r.id == rid) (statusUpdate s now) db.reports }) := by
      simp [updateStatus, hs, hfind]
    rw [hres]
    refine ⟨rfl, ?_⟩
    intro r' hr' hid
    rw [mem_updateRows] at hr'
    obtain ⟨y, hy, hcase⟩ := hr'
    by_cases hpy : (y.id == rid) = true
    · rw [if_pos hpy] at hcase; subst hcase; rfl
    · rw [if_neg hpy] at hcase; subst hcase
      exact absurd hid (by simpa using hpy)
  · intro db rid s now hs
    simp [updateStatus, hs]

/-- Claim C2, witness: moving the completed report 1 to `in_progress` is
accepted and applied, and the malformed status string "bogus" is rejected
with the state unchanged. -/
theorem C2_witness :
    (updateStatus dbC2 1 "in_progress" 7).1 = ⟨200, true, "Status updated"⟩ ∧
    updateStatus dbC2 1 "bogus" 7 = (⟨400, false, "Invalid status"⟩, dbC2) :=
  ⟨(C2_amended.1 dbC2 1 "in_progress" 7 repDone (by decide) rfl).1,
   C2_amended.2 dbC2 1 "bogus" 7 (by decide)⟩

/-! ### Claim C3 — losing claim attempts get AlreadyAssigned -/

/-- Claim C3, counterexample.  Report 1 is already assigned to collector 2;
collector 3's claim attempt is answered with the generic 400 "Report is not
available for assignment" — byte-for-byte the same response produced for the
cancelled report 9, a different failure cause entirely — so the failure
carries no specific AlreadyAssigned error kind. -/
theorem C3_counterexample :
    assignReport dbC3 3 1 7 = (⟨400, false, "Report is not available for assignment"⟩, dbC3) ∧
    assignReport dbC3 3 9 7 = (⟨400, false, "Report is not available for assignment"⟩, dbC3) :=
  ⟨rfl, rfl⟩

/-- Claim C3, amended: a claim on a non-claimable (e.g. already assigned)
report fails with the generic 400 "Report is not available for assignment" —
not a specific AlreadyAssigned kind — leaving the state unchanged; a claim on
a pending report with a successful first payment succeeds and assigns the
caller; and sequentially, after one claim succeeds every later claim on the
same report fails with that same generic response, state unchanged, so
exactly one succeeds. -/
theorem C3_amended :
    (∀ (db : DB) (c rid now : Nat) (r : ReportRow),
      db.reports.find? (fun r => r.id == rid) = some r →
      r.status ≠ ReportStatus.pending →
      assignReport db c rid now =
        (⟨400, false, "Report is not available for assignment"⟩, db)) ∧
    (∀ (db : DB) (c rid now : Nat) (r : ReportRow) (pay : PaymentRow),
      db.reports.find? (fun r => r.id == rid) = some r →
      r.status = ReportStatus.pending →
      (db.payments.filter (fun p => p.report_id == rid)).head? = some pay →
      pay.payment_status = PaymentStatus.successful →
      (assignReport db c rid now).1 = ⟨200, true, "Report assigned successfully"⟩ ∧
      ∀ r' ∈ (assignReport db c rid now).2.reports, r'.id = rid →
        r'.status = ReportStatus.assigned ∧ r'.assigned_collector_id = some c) ∧
    (∀ (db : DB) (c rid now : Nat) (r : ReportRow) (pay : PaymentRow),
      db.reports.find? (fun r => r.id == rid) = some r →
      r.status = ReportStatus.pending →
      (db.payments.filter (fun p => p.report_id == rid)).head? = some pay →
      pay.payment_status = PaymentStatus.successful →
      ∀ (c₂ now₂ : Nat),
        assignReport (assignReport db c rid now).2 c₂ rid now₂ =
          (⟨400, false, "Report is not available for assignment"⟩,
            (assignReport db c rid now).2)) := by
  refine ⟨?_, ?_, ?_⟩
  · intro db c rid now r hfind hst
    simp [assignReport, hfind, hst]
  · intro db c rid now r pay hfind hst hpay hps
    have hres : assignReport db c rid now =
        (⟨200, true, "Report assigned successfully"⟩,
          { db with reports := updateRows (fun r => r.id == rid) (claimUpdate c now) db.reports }) := by
      simp [assignReport, hfind, hst, hpay, hps]
    rw [hres]
    refine ⟨rfl, ?_⟩
    intro r' hr' hid
    rw [mem_updateRows] at hr'
    obtain ⟨y, hy, hcase⟩ := hr'
    by_cases hpy : (y.id == rid) = true
    · rw [if_pos hpy] at hcase; subst hcase; exact ⟨rfl, rfl⟩
    · rw [if_neg hpy] at hcase; subst hcase
      exact absurd hid (by simpa using hpy)
  · intro db c rid now r pay hfind hst hpay hps c₂ now₂
    have h2 : (assignReport db c rid now).2 =
        { db with reports := updateRows (fun r => r.id == rid) (claimUpdate c now) db.reports } := by
      simp [assignReport, hfind, hst, hpay, hps]
    rw [h2]
    have hfind2 : (updateRows (fun r => r.id == rid) (claimUpdate c now)
        db.reports).find? (fun r => r.id == rid) = some (claimUpdate c now r) := by
      rw [find?_updateRows (q := fun r => r.id == rid) (p := fun r => r.id == rid)
        (f := claimUpdate c now) (fun x => rfl), hfind]
      have hpr := List.find?_some (p := fun r : ReportRow => r.id == rid) hfind
      simp only [beq_iff_eq] at hpr
      simp [hpr]
    simp [assignReport, hfind2,
      show (claimUpdate c now r).status = ReportStatus.assigned from rfl]

/-- Claim C3, witness: collector 2 wins the claim on paid pending report 1,
and collector 3's subsequent attempt fails with the generic message, leaving
the state as the winner left it. -/
theorem C3_witness :
    (assignReport dbC1 2 1 7).1 = ⟨200, true, "Report assigned successfully"⟩ ∧
    assignReport (assignReport dbC1 2 1 7).2 3 1 8 =
      (⟨400, false, "Report is not available for assignment"⟩, (assignReport dbC1 2 1 7).2) :=
  ⟨(C3_amended.2.1 dbC1 2 1 7 rep1 pay1 rfl rfl rfl rfl).1,
   C3_amended.2.2 dbC1 2 1 7 rep1 pay1 rfl rfl rfl rfl 3 8⟩

/-! ### Claim C4 — assigned-collector iff active-status invariant -/

/-- Claim C4, counterexample.  Report 1 is pending and unassigned (the
invariant holds); one status-route call moves it straight to `completed`
without touching `assigned_collector_id`, producing a COMPLETED report with a
null collector — the invariant does not survive every operation. -/
theorem C4_counterexample :
    (updateStatus dbC4 1 "completed" 7).2.reports =
      [⟨1, 1, locA, ReportStatus.completed, none, 5000, none, none, some 7⟩] ∧
    ¬ reportInv ⟨1, 1, locA, ReportStatus.completed, none, 5000, none, none, some 7⟩ :=
  ⟨rfl, by decide⟩

/-- Claim C4, amended: report creation establishes the invariant and the claim
and verify operations preserve it (verify under primary-key uniqueness of
report ids), but the status-update operation does not, so the invariant does
not hold after arbitrary operation sequences. -/
theorem C4_amended :
    (∀ (db : DB) (resId newId : Nat) (loc : Location) (amount : ℚ),
      (∀ r ∈ db.reports, reportInv r) →
      ∀ r' ∈ (createReport db resId newId loc amount).2.reports, reportInv r') ∧
    (∀ (db : DB) (c rid now : Nat),
      (∀ r ∈ db.reports, reportInv r) →
      ∀ r' ∈ (assignReport db c rid now).2.reports, reportInv r') ∧
    (∀ (db : DB) (c rid : Nat) (loc : Location) (qr : Bool) (lid now : Nat),
      (db.reports.map (fun r => r.id)).Nodup →
      (∀ r ∈ db.reports, reportInv r) →
      ∀ r' ∈ (verifyCollection db c rid loc qr lid now).2.reports, reportInv r') := by
  refine ⟨?_, ?_, ?_⟩
  · intro db resId newId loc amount h r' hr'
    by_cases hv : ((-90 ≤ loc.lat ∧ loc.lat ≤ 90) ∧ (-180 ≤ loc.lng ∧ loc.lng ≤ 180))
    · simp only [createReport, if_pos hv, List.mem_append, List.mem_singleton] at hr'
      rcases hr' with hr' | rfl
      · exact h r' hr'
      · simp [reportInv]
    · simp only [createReport, if_neg hv] at hr'
      exact h r' hr'
  · intro db c rid now h r' hr'
    rcases hf : db.reports.find? (fun r => r.id == rid) with _ | r
    · have hres : (assignReport db c rid now).2.reports = db.reports := by
        simp [assignReport, hf]
      rw [hres] at hr'; exact h _ hr'
    · by_cases hst : r.status = ReportStatus.pending
      · rcases hp : (db.payments.filter (fun p => p.report_id == rid)).head? with _ | pay
        · have hres : (assignReport db c rid now).2.reports = db.reports := by
            simp [assignReport, hf, hst, hp]
          rw [hres] at hr'; exact h _ hr'
        · by_cases hps : pay.payment_status = PaymentStatus.successful
          · have hres : (assignReport db c rid now).2.reports =
                updateRows (fun r => r.id == rid) (claimUpdate c now) db.reports := by
              simp [assignReport, hf, hst, hp, hps]
            rw [hres, mem_updateRows] at hr'
            obtain ⟨y, hy, hcase⟩ := hr'
            by_cases hpy : (y.id == rid) = true
            · rw [if_pos hpy] at hcase; subst hcase
              simp [reportInv, claimUpdate]
            · rw [if_neg hpy] at hcase; subst hcase
              exact h _ hy
          · have hres : (assignReport db c rid now).2.reports = db.reports := by
              simp [assignReport, hf, hst, hp, hps]
            rw [hres] at hr'; exact h _ hr'
      · have hres : (assignReport db c rid now).2.reports = db.reports := by
          simp [assignReport, hf, hst]
        rw [hres] at hr'; exact h _ hr'
  · intro db c rid loc qr lid now hnodup h r' hr'
    rcases hf : db.reports.find?
        (fun x => x.id == rid && x.assigned_collector_id == some c) with _ | r
    · have hres : (verifyCollection db c rid loc qr lid now).2.reports = db.reports := by
        simp [verifyCollection, hf]
      rw [hres] at hr'; exact h _ hr'
    · have hpred := List.find?_some
        (p := fun x : ReportRow => x.id == rid && x.assigned_collector_id == some c) hf
      simp only [Bool.and_eq_true, beq_iff_eq] at hpred
      have hrmem : r ∈ db.reports := List.mem_of_find?_eq_some hf
      have hres : (verifyCollection db c rid loc qr lid now).2.reports =
          updateRows (fun r => r.id == rid) (verifyUpdate now) db.reports := by
        simp [verifyCollection, hf]
      rw [hres, mem_updateRows] at hr'
      obtain ⟨y, hy, hcase⟩ := hr'
      by_cases hpy : (y.id == rid) = true
      · rw [if_pos hpy] at hcase; subst hcase
        have hyr : y = r := by
          refine List.inj_on_of_nodup_map hnodup hy hrmem ?_
          simp only [beq_iff_eq] at hpy
          rw [hpy, hpred.1]
        have hcol : y.assigned_collector_id = some c := by rw [hyr]; exact hpred.2
        simp [reportInv, verifyUpdate, hcol]
      · rw [if_neg hpy] at hcase; subst hcase
        exact h _ hy

/-- Claim C4, witness: the invariant holds for the concrete rows produced by a
successful claim on report 1 and by a verify on the assigned report 1. -/
theorem C4_witness :
    reportInv ⟨1, 1, locA, ReportStatus.assigned, some 2, 5000, some 7, none, none⟩ ∧
    reportInv ⟨1, 1, locA, ReportStatus.completed, some 2, 5000, some 3, none, some 50⟩ :=
  ⟨C4_amended.2.1 dbC1 2 1 7 (by decide)
      ⟨1, 1, locA, ReportStatus.assigned, some 2, 5000, some 7, none, none⟩ (by decide),
   C4_amended.2.2 dbC8 2 1 locB true 10 50 (by decide) (by decide)
      ⟨1, 1, locA, ReportStatus.completed, some 2, 5000, some 3, none, some 50⟩ (by decide)⟩

/-! ### Claim C5 — nearest-collector ranking -/

/-- Claim C5, counterexample.  Two active collectors sit at the same point
(equal distance for any distance function); the table lists the higher id
first.  The SQL `ORDER BY` has distance as its only key, so the query returns
ids in table order [3, 2], not ascending id order [2, 3] — there is no
tie-break by collector id. -/
theorem C5_counterexample :
    ((find_nearest_collector distEx dbC5 1).map (fun x => x.1.id) = [3, 2]) ∧
    ((find_nearest_collector distEx dbC5 1).map (fun x => x.2) =
      [distEx locB locA, distEx locB locA]) :=
  ⟨rfl, rfl⟩

/-- Claim C5, amended: the query returns at most 5 collectors, exactly the
active collectors with a present location (all of them when at most 5 exist,
as a permutation), with non-decreasing distances; an unknown report or zero
eligible collectors yields the empty sequence, not an error.  No tie-break on
equal distances is applied: the order among ties is the table's row order, not
ascending collector id. -/
theorem C5_amended (dist : Location → Location → ℚ) (db : DB) (rid : Nat) :
    (find_nearest_collector dist db rid).length ≤ 5 ∧
    List.Pairwise (fun a b : UserRow × ℚ => a.2 ≤ b.2) (find_nearest_collector dist db rid) ∧
    (db.reports.find? (fun r => r.id == rid) = none →
      find_nearest_collector dist db rid = []) ∧
    (∀ gr : ReportRow, db.reports.find? (fun r => r.id == rid) = some gr →
      (∀ x ∈ find_nearest_collector dist db rid,
        x.1 ∈ db.users ∧ x.1.user_type = UserType.collector ∧ x.1.is_active = true ∧
        ∃ l, x.1.current_location = some l ∧ x.2 = dist l gr.location) ∧
      (eligibleCollectors dist db gr = [] → find_nearest_collector dist db rid = []) ∧
      ((eligibleCollectors dist db gr).length ≤ 5 →
        (find_nearest_collector dist db rid).Perm (eligibleCollectors dist db gr))) := by
  rcases hf : db.reports.find? (fun r => r.id == rid) with _ | gr0
  · refine ⟨?_, ?_, fun _ => ?_, ?_⟩ <;>
      simp [find_nearest_collector, hf]
  · have hval : find_nearest_collector dist db rid =
        ((eligibleCollectors dist db gr0).insertionSort (fun a b => a.2 ≤ b.2)).take 5 := by
      simp [find_nearest_collector, hf]
    refine ⟨?_, ?_, ?_, ?_⟩
    · rw [hval]; exact List.length_take_le 5 _
    · rw [hval]
      exact List.Pairwise.sublist (List.take_sublist 5 _)
        (List.sorted_insertionSort (fun a b : UserRow × ℚ => a.2 ≤ b.2) _)
    · intro hnone; rw [hf] at hnone; cases hnone
    · intro gr hgr
      rw [hf] at hgr
      obtain rfl := Option.some.inj hgr
      refine ⟨?_, ?_, ?_⟩
      · intro x hx
        rw [hval] at hx
        have hx2 : x ∈ (eligibleCollectors dist db gr0).insertionSort
            (fun a b : UserRow × ℚ => a.2 ≤ b.2) :=
          (List.take_sublist 5 _).subset hx
        rw [List.mem_insertionSort] at hx2
        exact mem_eligibleCollectors.mp hx2
      · intro hel
        rw [hval, hel]
        rfl
      · intro hlen
        rw [hval]
        have hlen2 : ((eligibleCollectors dist db gr0).insertionSort
            (fun a b : UserRow × ℚ => a.2 ≤ b.2)).length ≤ 5 := by
          rw [List.length_insertionSort]; exact hlen
        rw [List.take_of_length_le hlen2]
        exact List.perm_insertionSort _ _

/-- Claim C5, witness for the amended theorem: on the two-collector state the
result is short, sorted, a permutation of the two eligible collectors, and the
eligibility facts hold of every returned entry. -/
theorem C5_witness :
    (find_nearest_collector distEx dbC5 1).length ≤ 5 ∧
    List.Pairwise (fun a b : UserRow × ℚ => a.2 ≤ b.2) (find_nearest_collector distEx dbC5 1) ∧
    (find_nearest_collector distEx dbC5 1).Perm (eligibleCollectors distEx dbC5 rep1) :=
  ⟨(C5_amended distEx dbC5 1).1,
   (C5_amended distEx dbC5 1).2.1,
   ((C5_amended distEx dbC5 1).2.2.2 rep1 rfl).2.2 (by decide)⟩

/-! ### Claim C7 — visibility of reports to collectors -/

/-- Claim C7, counterexample.  A freshly submitted report — the payments table
is empty, so no payment was ever confirmed — appears immediately in the
collector-facing nearby listing. -/
theorem C7_counterexample :
    getNearbyReports (createReport dbC7 1 1 locA 5000).2 =
      [⟨1, 1, locA, ReportStatus.pending, none, 5000, none, none, none⟩] ∧
    (createReport dbC7 1 1 locA 5000).2.payments = [] :=
  ⟨rfl, rfl⟩

/-- Claim C7, amended: submitReport creates the report with status `pending` —
the code has one pre-assignment status, with no separate PAYMENT_CONFIRMED
state — and the collector-facing nearby query returns exactly the
`pending`-status reports (up to 20) regardless of any payment, so reports
whose payment has not been confirmed are visible to collectors; payment is
checked only at claim time. -/
theorem C7_amended :
    (∀ (db : DB) (resId newId : Nat) (loc : Location) (amount : ℚ),
      ((-90 ≤ loc.lat ∧ loc.lat ≤ 90) ∧ (-180 ≤ loc.lng ∧ loc.lng ≤ 180)) →
      (createReport db resId newId loc amount).2.reports =
        db.reports ++
          [⟨newId, resId, loc, ReportStatus.pending, none, amount, none, none, none⟩]) ∧
    (∀ db : DB, ∀ r ∈ getNearbyReports db, r.status = ReportStatus.pending) ∧
    (∀ db : DB,
      (db.reports.filter (fun r => r.status == ReportStatus.pending)).length ≤ 20 →
      getNearbyReports db =
        db.reports.filter (fun r => r.status == ReportStatus.pending)) := by
  refine ⟨?_, ?_, ?_⟩
  · intro db resId newId loc amount hv
    simp [createReport, hv]
  · intro db r hr
    have hr2 : r ∈ db.reports.filter (fun r => r.status == ReportStatus.pending) :=
      (List.take_sublist 20 _).subset hr
    have := List.of_mem_filter hr2
    simpa using this
  · intro db hlen
    exact List.take_of_length_le hlen

/-- Claim C7, witness: the concrete created report row, and the nearby query
on the completed-report state returning exactly the pending-filtered rows. -/
theorem C7_witness :
    (createReport dbC7 1 1 locA 5000).2.reports =
      dbC7.reports ++ [⟨1, 1, locA, ReportStatus.pending, none, 5000, none, none, none⟩] ∧
    getNearbyReports dbC2 = dbC2.reports.filter (fun r => r.status == ReportStatus.pending) :=
  ⟨C7_amended.1 dbC7 1 1 locA 5000 (by norm_num [locA]),
   C7_amended.2.2 dbC2 (by decide)⟩

/-! ### Claim C8 — exactly one CollectionEvent per completed report -/

/-- Claim C8, counterexample.  Two verify calls on the same assigned report
both succeed and create two CollectionEvents: the claim's
"repeated verify calls never create a second one" is false. -/
theorem C8_counterexample :
    (verifyCollection (verifyCollection dbC8 2 1 locB true 10 50).2
        2 1 locB true 11 60).1.code = 200 ∧
    (verifyCollection (verifyCollection dbC8 2 1 locB true 10 50).2
        2 1 locB true 11 60).2.collection_logs.length = 2 :=
  ⟨rfl, rfl⟩

/-- Claim C8, amended: every verify call by the collector the report is
assigned to succeeds — regardless of the report's current status — appending
exactly one new CollectionEvent and leaving previously created events
unmodified, and setting the report to `completed`; a repeated verify succeeds
again and appends another event, so creation is per-call, not exactly-once
per report. -/
theorem C8_amended (db : DB) (c rid : Nat) (loc : Location) (qr : Bool) (lid now : Nat)
    (r : ReportRow)
    (hfind : db.reports.find?
      (fun x => x.id == rid && x.assigned_collector_id == some c) = some r) :
    ((verifyCollection db c rid loc qr lid now).1 =
      ⟨200, true, "Collection verified successfully"⟩) ∧
    ((verifyCollection db c rid loc qr lid now).2.collection_logs =
      db.collection_logs ++ [⟨lid, rid, c, qr, loc, none, now, now⟩]) ∧
    (∀ r' ∈ (verifyCollection db c rid loc qr lid now).2.reports, r'.id = rid →
      r'.status = ReportStatus.completed) ∧
    (∀ (l2 : Location) (q2 : Bool) (lid2 now2 : Nat),
      (verifyCollection (verifyCollection db c rid loc qr lid now).2
        c rid l2 q2 lid2 now2).2.collection_logs.length =
        db.collection_logs.length + 2) := by
  have hres : verifyCollection db c rid loc qr lid now =
      (⟨200, true, "Collection verified successfully"⟩,
        { db with
          collection_logs := db.collection_logs ++ [⟨lid, rid, c, qr, loc, none, now, now⟩]
          reports := updateRows (fun r => r.id == rid) (verifyUpdate now) db.reports }) := by
    simp [verifyCollection, hfind]
  have hpred := List.find?_some
    (p := fun x : ReportRow => x.id == rid && x.assigned_collector_id == some c) hfind
  simp only [Bool.and_eq_true, beq_iff_eq] at hpred
  refine ⟨by rw [hres], by rw [hres], ?_, ?_⟩
  · intro r' hr' hid
    rw [hres] at hr'
    rw [mem_updateRows] at hr'
    obtain ⟨y, hy, hcase⟩ := hr'
    by_cases hpy : (y.id == rid) = true
    · rw [if_pos hpy] at hcase; subst hcase; rfl
    · rw [if_neg hpy] at hcase; subst hcase
      exact absurd hid (by simpa using hpy)
  · intro l2 q2 lid2 now2
    have hfind2 : (updateRows (fun r => r.id == rid) (verifyUpdate now) db.reports).find?
        (fun x => x.id == rid && x.assigned_collector_id == some c) =
        some (verifyUpdate now r) := by
      rw [find?_updateRows
        (q := fun x => x.id == rid && x.assigned_collector_id == some c)
        (p := fun r => r.id == rid) (f := verifyUpdate now) (fun x => rfl), hfind]
      simp [hpred.1]
    rw [hres]
    have hres2 : verifyCollection
        { db with
          collection_logs := db.collection_logs ++ [⟨lid, rid, c, qr, loc, none, now, now⟩]
          reports := updateRows (fun r => r.id == rid) (verifyUpdate now) db.reports }
        c rid l2 q2 lid2 now2 =
        (⟨200, true, "Collection verified successfully"⟩,
          { db with
            collection_logs := (db.collection_logs ++ [⟨lid, rid, c, qr, loc, none, now, now⟩]) ++
              [⟨lid2, rid, c, q2, l2, none, now2, now2⟩]
            reports := updateRows (fun r => r.id == rid) (verifyUpdate now2)
              (updateRows (fun r => r.id == rid) (verifyUpdate now) db.reports) }) := by
      simp [verifyCollection, hfind2]
    rw [hres2]
    simp

/-- Claim C8, witness: a first verify answers 200, and a second verify on the
resulting state leaves two CollectionEvents in place of zero. -/
theorem C8_witness :
    (verifyCollection dbC8 2 1 locB true 10 50).1 =
      ⟨200, true, "Collection verified successfully"⟩ ∧
    (verifyCollection (verifyCollection dbC8 2 1 locB true 10 50).2
        2 1 locB false 11 60).2.collection_logs.length =
      dbC8.collection_logs.length + 2 :=
  ⟨(C8_amended dbC8 2 1 locB true 10 50 repAssigned rfl).1,
   (C8_amended dbC8 2 1 locB true 10 50 repAssigned rfl).2.2.2 locB false 11 60⟩

/-! ### Claim C9 — distance_from_report on the CollectionEvent -/

/-- Claim C9: the schema documents `distance_from_report` as the distance
between the reported and the actual collection location, and provides
`calculate_distance`, but the verify route's insert never computes or sets the
column.  A successful verify at a scan point distinct from the report's
location stores no distance at all (the column stays null). -/
theorem C9_no_distance_recorded :
    ((verifyCollection dbC8 2 1 locB true 10 50).2.collection_logs.map
        (fun log => log.distance_from_report) = [none]) ∧
    dbC8.reports.map (fun r => r.location) = [locA] ∧ locA ≠ locB :=
  ⟨rfl, rfl, by decide⟩

end GFC
